import Mathlib

/-!
Shallow embedding of the cx-portal lead-capture worker handlers.

The repository contains several near-duplicate Cloudflare Worker request
handlers.  Each handler receives an HTTP request, branches on the method,
and for POST requests parses the form data, verifies a Turnstile token
against the external verification service, optionally writes a lead record
to a key-value store, and builds a JSON response.

The handlers are embedded as pure functions over an `Oracle` that fixes the
outcome of every external interaction of one invocation: the result of
parsing the form data (`request.formData()` may throw), the combined result
of the outbound verification fetch plus its JSON parse (either may throw),
the result of the key-value `put` (may throw), the value produced by
`crypto.randomUUID()`, and the value of `new Date().toISOString()`.

Effects record the outbound verification calls issued (with the secret and
token sent) and the `put` calls issued (key and serialized record).  A
"write to storage" is a `put` invocation by the handler; whether the store
itself then fails is recorded by `putResult` in the oracle, which decides whether the
handler reaches its response or propagates the thrown error.
-/

/-- A JSON value as constructed or received by the workers. -/
inductive Jsonv where
  | null : Jsonv
  | str : String → Jsonv
  | bool : Bool → Jsonv
  | arr : List Jsonv → Jsonv
  | obj : List (String × Jsonv) → Jsonv

/-- Property access `j.k` on a parsed JSON value: field lookup on an
object, `undefined` (here `none`) otherwise. -/
def Jsonv.getField : Jsonv → String → Option Jsonv
  | .obj fields, k => fields.lookup k
  | _, _ => none

/-- JavaScript truthiness of a JSON value. -/
def Jsonv.isTruthy : Jsonv → Bool
  | .null => false
  | .str s => s ≠ ""
  | .bool b => b
  | .arr _ => true
  | .obj _ => true

/-- The test `verification.success` used by every handler: truthiness of
the `success` field, with an absent field (`undefined`) being falsy. -/
def successFlag (verification : Jsonv) : Bool :=
  match verification.getField "success" with
  | some x => x.isTruthy
  | none => false

/-- A thrown JavaScript error, identified by its message. -/
structure JsError where
  msg : String
deriving Repr, DecidableEq

/-- Result of an awaited external operation: a value, or a thrown error. -/
inductive JsResult (α : Type) where
  | ok : α → JsResult α
  | thrown : JsError → JsResult α
deriving Repr, DecidableEq

/-- Whether an awaited operation returned normally. -/
def JsResult.isOk : JsResult α → Bool
  | .ok _ => true
  | .thrown _ => false

/-- The form fields the handlers read via `formData.get`: each is a string
or, when the field is absent, JavaScript `null` (here `none`). -/
structure FormFields where
  email : Option String
  company : Option String
  turnstileToken : Option String
deriving Repr, DecidableEq

/-- Rendering of a possibly-null form value inside a template literal:
`null` interpolates as the string "null". -/
def jsTemplate : Option String → String
  | some s => s
  | none => "null"

/-- JSON serialization of a possibly-null form value inside an object
literal: `null` serializes as JSON null. -/
def jsField : Option String → Jsonv
  | some s => .str s
  | none => .null

/-- JavaScript falsiness of a form value: `null` or the empty string. -/
def jsFalsyStr : Option String → Bool
  | none => true
  | some s => s = ""

/-- Outcomes of the external interactions of one handler invocation. -/
structure Oracle where
  /-- Result of `await request.formData()` and the `formData.get` reads. -/
  formResult : JsResult FormFields
  /-- Combined result of the verification fetch and `verifyResponse.json()`:
  the parsed JSON body on success, or the thrown network or parse error. -/
  verifyResult : JsResult Jsonv
  /-- Result of `await env.WAITLIST_STORAGE.put(...)`. -/
  putResult : JsResult Unit
  /-- The value of `crypto.randomUUID()` in this invocation. -/
  uuid : String
  /-- The value of `new Date().toISOString()` in this invocation. -/
  now : String

/-- One outbound call to the Turnstile verification service, recording the
secret and the submitted token it carries. -/
structure VerifyCall where
  secret : String
  response : Option String
deriving Repr, DecidableEq

/-- The I/O a handler invocation performed: verification calls issued and
key-value `put` calls issued (key and serialized record). -/
structure Effects where
  verifyCalls : List VerifyCall
  puts : List (String × Jsonv)

/-- No effects. -/
def noEffects : Effects := ⟨[], []⟩

/-- Body of a constructed `Response`. -/
inductive Body where
  | empty : Body
  | text : String → Body
  | json : Jsonv → Body

/-- A constructed HTTP response: status, headers, body. -/
structure HResponse where
  status : Nat
  headers : List (String × String)
  body : Body

/-- Result of one handler invocation: the response it returned (or the
error it let propagate), together with the effects it performed. -/
structure Outcome where
  result : JsResult HResponse
  effects : Effects

/-- The JSON body of the returned response, when there is one. -/
def Outcome.responseJson (out : Outcome) : Option Jsonv :=
  match out.result with
  | .ok r =>
    match r.body with
    | .json j => some j
    | _ => none
  | .thrown _ => none

/-- The `id` field of the returned JSON body, when there is one. -/
def Outcome.responseId (out : Outcome) : Option Jsonv :=
  match out.responseJson with
  | some j => j.getField "id"
  | none => none

/-- The headers of the returned response, when one was returned. -/
def Outcome.responseHeaders (out : Outcome) : List (String × String) :=
  match out.result with
  | .ok r => r.headers
  | .thrown _ => []

/-- The field names of a serialized record, in order. -/
def fieldNames : Jsonv → Option (List String)
  | .obj fields => some (fields.map Prod.fst)
  | _ => none

def hAllowOrigin : String × String := ("Access-Control-Allow-Origin", "*")

def hAllowMethods : String × String := ("Access-Control-Allow-Methods", "POST, OPTIONS")

def hAllowHeaders : String × String :=
  ("Access-Control-Allow-Headers",
   "Content-Type, X-CX-Frontend-Signature, X-CX-Request-ID, X-CX-Timestamp, X-CX-Origin, X-Edge-Node, Cache-Control")

def hContentTypeJson : String × String := ("Content-Type", "application/json")

/-- Did the verification call of the invocation return a result reporting
success?  False when the form parse threw (no call is made), when the
verification call itself threw, and when the returned JSON is not truthy
in `success`. -/
def Oracle.verifySuccess (o : Oracle) : Bool :=
  match o.formResult, o.verifyResult with
  | .ok _, .ok v => successFlag v
  | _, _ => false

namespace BackupWorker

/-- Embeds the default-export `fetch` handler of `src/backup_worker.js`.
OPTIONS gets 204 with the three CORS headers; any method other than POST
gets a plain-text 405 with no headers.  For POST: form parse, then the
verification call (secret and token in the body), early plain-text 403
"Bot detected" (no headers) when `verification.success` is falsy,
otherwise a `put` under key `lead:<email>` of the record with fields
email, timestamp, id, and a 200 JSON response with success and id.  There
is no try/catch: a thrown error propagates. -/
def fetch (method : String) (secret : String) (o : Oracle) : Outcome :=
  if method = "OPTIONS" then
    ⟨.ok ⟨204, [hAllowOrigin, hAllowMethods, hAllowHeaders], .empty⟩, noEffects⟩
  else if method ≠ "POST" then
    ⟨.ok ⟨405, [], .text "Method Not Allowed"⟩, noEffects⟩
  else
    match o.formResult with
    | .thrown e => ⟨.thrown e, noEffects⟩
    | .ok fd =>
      let call : VerifyCall := ⟨secret, fd.turnstileToken⟩
      match o.verifyResult with
      | .thrown e => ⟨.thrown e, ⟨[call], []⟩⟩
      | .ok verification =>
        if successFlag verification then
          let record : Jsonv := .obj
            [("email", jsField fd.email), ("timestamp", .str o.now), ("id", .str o.uuid)]
          let eff : Effects := ⟨[call], [("lead:" ++ jsTemplate fd.email, record)]⟩
          match o.putResult with
          | .thrown e => ⟨.thrown e, eff⟩
          | .ok _ =>
            ⟨.ok ⟨200, [hContentTypeJson, hAllowOrigin],
               .json (.obj [("success", .bool true), ("id", .str o.uuid)])⟩, eff⟩
        else
          ⟨.ok ⟨403, [], .text "Bot detected"⟩, ⟨[call], []⟩⟩

end BackupWorker

namespace Part000

/-- Embeds the default-export `fetch` handler of `src/unnamed/part_000`.
Like the backup worker, but the 405 carries the allow-origin header and a
falsy `verification.success` yields a 403 JSON body with fields success,
error, and `details` set to the whole verification response.  No
try/catch: a thrown error propagates. -/
def fetch (method : String) (secret : String) (o : Oracle) : Outcome :=
  if method = "OPTIONS" then
    ⟨.ok ⟨204, [hAllowOrigin, hAllowMethods, hAllowHeaders], .empty⟩, noEffects⟩
  else if method ≠ "POST" then
    ⟨.ok ⟨405, [hAllowOrigin], .text "Method Not Allowed"⟩, noEffects⟩
  else
    match o.formResult with
    | .thrown e => ⟨.thrown e, noEffects⟩
    | .ok fd =>
      let call : VerifyCall := ⟨secret, fd.turnstileToken⟩
      match o.verifyResult with
      | .thrown e => ⟨.thrown e, ⟨[call], []⟩⟩
      | .ok verification =>
        if successFlag verification then
          let record : Jsonv := .obj
            [("email", jsField fd.email), ("timestamp", .str o.now), ("id", .str o.uuid)]
          let eff : Effects := ⟨[call], [("lead:" ++ jsTemplate fd.email, record)]⟩
          match o.putResult with
          | .thrown e => ⟨.thrown e, eff⟩
          | .ok _ =>
            ⟨.ok ⟨200, [hContentTypeJson, hAllowOrigin],
               .json (.obj [("success", .bool true), ("id", .str o.uuid)])⟩, eff⟩
        else
          ⟨.ok ⟨403, [hContentTypeJson, hAllowOrigin],
             .json (.obj [("success", .bool false),
                          ("error", .str "Turnstile verification failed"),
                          ("details", verification)])⟩, ⟨[call], []⟩⟩

end Part000

namespace ConfigExample

/-- Embeds the worker `fetch` handler appearing in `src/config.example.js`.
Like the unnamed variant, but it also reads the `company` form field, its
403 body is the generic object with only success and error fields, and the
record (fields email, company, timestamp, id) is stored under the bare
generated identifier as key.  No try/catch: a thrown error propagates. -/
def fetch (method : String) (secret : String) (o : Oracle) : Outcome :=
  if method = "OPTIONS" then
    ⟨.ok ⟨204, [hAllowOrigin, hAllowMethods, hAllowHeaders], .empty⟩, noEffects⟩
  else if method ≠ "POST" then
    ⟨.ok ⟨405, [hAllowOrigin], .text "Method Not Allowed"⟩, noEffects⟩
  else
    match o.formResult with
    | .thrown e => ⟨.thrown e, noEffects⟩
    | .ok fd =>
      let call : VerifyCall := ⟨secret, fd.turnstileToken⟩
      match o.verifyResult with
      | .thrown e => ⟨.thrown e, ⟨[call], []⟩⟩
      | .ok verification =>
        if successFlag verification then
          let record : Jsonv := .obj
            [("email", jsField fd.email), ("company", jsField fd.company),
             ("timestamp", .str o.now), ("id", .str o.uuid)]
          let eff : Effects := ⟨[call], [(o.uuid, record)]⟩
          match o.putResult with
          | .thrown e => ⟨.thrown e, eff⟩
          | .ok _ =>
            ⟨.ok ⟨200, [hContentTypeJson, hAllowOrigin],
               .json (.obj [("success", .bool true), ("id", .str o.uuid)])⟩, eff⟩
        else
          ⟨.ok ⟨403, [hContentTypeJson, hAllowOrigin],
             .json (.obj [("success", .bool false),
                          ("error", .str "Turnstile verification failed")])⟩, ⟨[call], []⟩⟩

end ConfigExample

namespace WorkerCorsComplete

/-- The headers attached by the `jsonResponse` helper of
`src/worker-cors-complete.js`. -/
def corsJsonHeaders : List (String × String) :=
  [hContentTypeJson, hAllowOrigin, hAllowMethods, hAllowHeaders]

/-- Embeds the `jsonResponse` helper: a JSON body with the full CORS
header set and the given status. -/
def jsonResponse (data : Jsonv) (status : Nat) : HResponse :=
  ⟨status, corsJsonHeaders, .json data⟩

/-- Embeds `handleOptions`: 204, empty body, CORS headers plus Max-Age. -/
def handleOptions : HResponse :=
  ⟨204, [hAllowOrigin, hAllowMethods, hAllowHeaders, ("Access-Control-Max-Age", "86400")], .empty⟩

/-- The hard-coded placeholder secret of `verifyTurnstile`. -/
def placeholderSecret : String := "YOUR_TURNSTILE_SECRET_KEY_HERE"

/-- The 500 response built in the catch block of `handlePost`. -/
def internalErrorResponse : HResponse :=
  jsonResponse (.obj [("success", .bool false), ("error", .str "Internal server error")]) 500

/-- Embeds `handlePost` of `src/worker-cors-complete.js`.  The whole body
is inside try/catch, so a thrown error (form parse or verification fetch)
becomes the 500 JSON response instead of propagating.  A missing or empty
token is rejected with 400 before any verification call.  On a falsy
`verification.success` the response is the generic 403.  On success a
fresh identifier is generated and returned with status 200, but the
key-value `put` is commented out in the source, so no write is issued. -/
def handlePost (o : Oracle) : Outcome :=
  match o.formResult with
  | .thrown _ => ⟨.ok internalErrorResponse, noEffects⟩
  | .ok fd =>
    if jsFalsyStr fd.turnstileToken then
      ⟨.ok (jsonResponse (.obj [("success", .bool false),
                                ("error", .str "Missing Turnstile token")]) 400), noEffects⟩
    else
      let call : VerifyCall := ⟨placeholderSecret, fd.turnstileToken⟩
      match o.verifyResult with
      | .thrown _ => ⟨.ok internalErrorResponse, ⟨[call], []⟩⟩
      | .ok verification =>
        if successFlag verification then
          ⟨.ok (jsonResponse (.obj [("success", .bool true), ("id", .str o.uuid)]) 200),
           ⟨[call], []⟩⟩
        else
          ⟨.ok (jsonResponse (.obj [("success", .bool false),
                                    ("error", .str "Invalid Turnstile token")]) 403),
           ⟨[call], []⟩⟩

/-- Embeds `handleRequest`: OPTIONS to `handleOptions`, POST to
`handlePost`, anything else to a bare plain-text 405. -/
def handleRequest (method : String) (o : Oracle) : Outcome :=
  if method = "OPTIONS" then
    ⟨.ok handleOptions, noEffects⟩
  else if method = "POST" then
    handlePost o
  else
    ⟨.ok ⟨405, [], .text "Method not allowed"⟩, noEffects⟩

end WorkerCorsComplete

/-! Concrete sample inputs used by witnesses and counterexamples. -/

/-- A well-formed submission: email, company, and a token present. -/
def sampleForm : FormFields :=
  ⟨some "alice@example.com", some "Acme", some "tok-123"⟩

/-- A verification response reporting success. -/
def verifyAccept : Jsonv := .obj [("success", .bool true)]

/-- A verification response reporting failure, carrying the internal
error codes of the service as a further field. -/
def verifyReject : Jsonv :=
  .obj [("success", .bool false), ("error-codes", .arr [.str "invalid-input-response"])]

/-- An invocation where every external interaction succeeds and the
token is accepted. -/
def okOracle : Oracle :=
  ⟨.ok sampleForm, .ok verifyAccept, .ok (), "9d2e7c2a-1111-4abc-8def-000000000001",
   "2026-10-11T00:00:00.000Z"⟩

/-- An invocation where the token is rejected by the service. -/
def rejectOracle : Oracle :=
  ⟨.ok sampleForm, .ok verifyReject, .ok (), "9d2e7c2a-1111-4abc-8def-000000000002",
   "2026-10-11T00:00:01.000Z"⟩

/-- An invocation where `request.formData()` throws. -/
def parseFailOracle : Oracle :=
  ⟨.thrown ⟨"TypeError: Failed to parse body as FormData"⟩, .ok verifyAccept, .ok (),
   "9d2e7c2a-1111-4abc-8def-000000000003", "2026-10-11T00:00:02.000Z"⟩

/-- A submission with no Turnstile token in the form data. -/
def missingTokenForm : FormFields :=
  ⟨some "alice@example.com", none, none⟩

/-- An invocation whose form parses but carries no token. -/
def missingTokenOracle : Oracle :=
  ⟨.ok missingTokenForm, .ok verifyAccept, .ok (), "9d2e7c2a-1111-4abc-8def-000000000004",
   "2026-10-11T00:00:03.000Z"⟩

/-- A second accepted invocation with the same email but a different
generated identifier. -/
def okOracle2 : Oracle :=
  ⟨.ok sampleForm, .ok verifyAccept, .ok (), "9d2e7c2a-1111-4abc-8def-000000000005",
   "2026-10-11T00:00:04.000Z"⟩

/-! Claim theorems. -/

/-- Claim C1: for every POST request, a lead record is written to the
key-value store (a `put` is issued) if and only if the verification
call result reported success: no write occurs on a failed verification,
and a successful verification is followed by a write.  Proved for the
three variants that persist to the store. -/
theorem c1_record_written_iff_verification_success (secret : String) (o : Oracle) :
    ((BackupWorker.fetch "POST" secret o).effects.puts ≠ [] ↔ o.verifySuccess = true)
    ∧ ((Part000.fetch "POST" secret o).effects.puts ≠ [] ↔ o.verifySuccess = true)
    ∧ ((ConfigExample.fetch "POST" secret o).effects.puts ≠ [] ↔ o.verifySuccess = true) := by
  obtain ⟨fr, vr, pr, u, n⟩ := o
  cases fr with
  | thrown e =>
    cases vr <;>
      simp [BackupWorker.fetch, Part000.fetch, ConfigExample.fetch, Oracle.verifySuccess, noEffects]
  | ok fd =>
    cases vr with
    | thrown e =>
      simp [BackupWorker.fetch, Part000.fetch, ConfigExample.fetch, Oracle.verifySuccess, noEffects]
    | ok v =>
      cases hs : successFlag v <;> cases pr <;>
        simp [BackupWorker.fetch, Part000.fetch, ConfigExample.fetch, Oracle.verifySuccess, noEffects, hs]

/-- Witness for C1 at a concrete accepted submission: a put is issued and
the verification reported success. -/
theorem c1_record_written_iff_verification_success_witness :
    (BackupWorker.fetch "POST" "sec" okOracle).effects.puts ≠ []
    ∧ okOracle.verifySuccess = true :=
  ⟨((c1_record_written_iff_verification_success "sec" okOracle).1).mpr rfl, rfl⟩

/-- Claim C5: for every request with method OPTIONS, each handler returns
status 204, an empty body, and the cross-origin headers (allow-origin,
allow-methods, allow-headers), with no side effects, whatever the oracle
says about the other steps (so the branch runs before any other). -/
theorem c5_options_preflight (secret : String) (o : Oracle) :
    BackupWorker.fetch "OPTIONS" secret o
      = ⟨.ok ⟨204, [hAllowOrigin, hAllowMethods, hAllowHeaders], .empty⟩, noEffects⟩
    ∧ Part000.fetch "OPTIONS" secret o
      = ⟨.ok ⟨204, [hAllowOrigin, hAllowMethods, hAllowHeaders], .empty⟩, noEffects⟩
    ∧ ConfigExample.fetch "OPTIONS" secret o
      = ⟨.ok ⟨204, [hAllowOrigin, hAllowMethods, hAllowHeaders], .empty⟩, noEffects⟩
    ∧ WorkerCorsComplete.handleRequest "OPTIONS" o
      = ⟨.ok ⟨204, [hAllowOrigin, hAllowMethods, hAllowHeaders,
                    ("Access-Control-Max-Age", "86400")], .empty⟩, noEffects⟩ :=
  ⟨rfl, rfl, rfl, rfl⟩

/-- Claim C2 (code evaluated at the failing input): when the form parse
throws on a POST, the backup and unnamed variants — which have no
try/catch — let the exception propagate and return no response, against
the claim; the worker-cors-complete variant catches it, yields the 500
JSON response, and indeed always returns some response. -/
theorem c2_fault_handling_divergence :
    (BackupWorker.fetch "POST" "sec" parseFailOracle).result
      = .thrown ⟨"TypeError: Failed to parse body as FormData"⟩
    ∧ (Part000.fetch "POST" "sec" parseFailOracle).result
      = .thrown ⟨"TypeError: Failed to parse body as FormData"⟩
    ∧ (WorkerCorsComplete.handlePost parseFailOracle).result
      = .ok WorkerCorsComplete.internalErrorResponse
    ∧ ∀ o : Oracle, (WorkerCorsComplete.handlePost o).result.isOk = true := by
  refine ⟨rfl, rfl, rfl, ?_⟩
  intro o
  obtain ⟨fr, vr, pr, u, n⟩ := o
  cases fr with
  | thrown e => rfl
  | ok fd =>
    cases hft : jsFalsyStr fd.turnstileToken with
    | true => simp [WorkerCorsComplete.handlePost, hft, JsResult.isOk]
    | false =>
      cases vr with
      | thrown e => simp [WorkerCorsComplete.handlePost, hft, JsResult.isOk]
      | ok v =>
        cases hs : successFlag v <;>
          simp [WorkerCorsComplete.handlePost, hft, hs, JsResult.isOk]

/-- Claim C3 counterexample: at a POST whose token the verification
service accepts, the worker-cors-complete variant returns the 200
success body with an identifier but issues no storage write at all (its
key-value put is commented out), so "exactly one record is written" fails
for it. -/
theorem c3_counterexample_no_write_in_cors_complete :
    okOracle.verifySuccess = true
    ∧ (WorkerCorsComplete.handlePost okOracle).result
      = .ok (WorkerCorsComplete.jsonResponse
          (.obj [("success", .bool true), ("id", .str okOracle.uuid)]) 200)
    ∧ (WorkerCorsComplete.handlePost okOracle).effects.puts = [] :=
  ⟨rfl, rfl, rfl⟩

/-- Claim C3 (amended): in the storing variants (backup, unnamed,
config.example), a POST whose form parses, whose token the verification
service accepts, and whose store put returns, yields status 200 with a
JSON body containing success true and the freshly generated non-empty
identifier, and exactly one record is written whose email field equals
the submitted email; the worker-cors-complete draft returns the same 200
body but writes nothing. -/
theorem c3_success_path_in_storing_variants (secret : String) (o : Oracle)
    (fd : FormFields) (v : Jsonv)
    (hf : o.formResult = .ok fd) (hv : o.verifyResult = .ok v)
    (hs : successFlag v = true) (hp : o.putResult = .ok ())
    (hu : o.uuid ≠ "") :
    Part000.fetch "POST" secret o
      = ⟨.ok ⟨200, [hContentTypeJson, hAllowOrigin],
           .json (.obj [("success", .bool true), ("id", .str o.uuid)])⟩,
         ⟨[⟨secret, fd.turnstileToken⟩],
          [("lead:" ++ jsTemplate fd.email,
            .obj [("email", jsField fd.email), ("timestamp", .str o.now),
                  ("id", .str o.uuid)])]⟩⟩
    ∧ BackupWorker.fetch "POST" secret o
      = ⟨.ok ⟨200, [hContentTypeJson, hAllowOrigin],
           .json (.obj [("success", .bool true), ("id", .str o.uuid)])⟩,
         ⟨[⟨secret, fd.turnstileToken⟩],
          [("lead:" ++ jsTemplate fd.email,
            .obj [("email", jsField fd.email), ("timestamp", .str o.now),
                  ("id", .str o.uuid)])]⟩⟩
    ∧ ConfigExample.fetch "POST" secret o
      = ⟨.ok ⟨200, [hContentTypeJson, hAllowOrigin],
           .json (.obj [("success", .bool true), ("id", .str o.uuid)])⟩,
         ⟨[⟨secret, fd.turnstileToken⟩],
          [(o.uuid,
            .obj [("email", jsField fd.email), ("company", jsField fd.company),
                  ("timestamp", .str o.now), ("id", .str o.uuid)])]⟩⟩
    ∧ o.uuid ≠ "" := by
  obtain ⟨fr, vr, pr, u, n⟩ := o
  simp only at hf hv hp hu
  subst hf
  subst hv
  subst hp
  refine ⟨?_, ?_, ?_, hu⟩ <;>
    simp [Part000.fetch, BackupWorker.fetch, ConfigExample.fetch, hs]

/-- Witness for the amended C3 at a concrete accepted submission. -/
theorem c3_success_path_in_storing_variants_witness :
    Part000.fetch "POST" "sec" okOracle
      = ⟨.ok ⟨200, [hContentTypeJson, hAllowOrigin],
           .json (.obj [("success", .bool true), ("id", .str okOracle.uuid)])⟩,
         ⟨[⟨"sec", sampleForm.turnstileToken⟩],
          [("lead:" ++ jsTemplate sampleForm.email,
            .obj [("email", jsField sampleForm.email), ("timestamp", .str okOracle.now),
                  ("id", .str okOracle.uuid)])]⟩⟩
    ∧ BackupWorker.fetch "POST" "sec" okOracle
      = ⟨.ok ⟨200, [hContentTypeJson, hAllowOrigin],
           .json (.obj [("success", .bool true), ("id", .str okOracle.uuid)])⟩,
         ⟨[⟨"sec", sampleForm.turnstileToken⟩],
          [("lead:" ++ jsTemplate sampleForm.email,
            .obj [("email", jsField sampleForm.email), ("timestamp", .str okOracle.now),
                  ("id", .str okOracle.uuid)])]⟩⟩
    ∧ ConfigExample.fetch "POST" "sec" okOracle
      = ⟨.ok ⟨200, [hContentTypeJson, hAllowOrigin],
           .json (.obj [("success", .bool true), ("id", .str okOracle.uuid)])⟩,
         ⟨[⟨"sec", sampleForm.turnstileToken⟩],
          [(okOracle.uuid,
            .obj [("email", jsField sampleForm.email), ("company", jsField sampleForm.company),
                  ("timestamp", .str okOracle.now), ("id", .str okOracle.uuid)])]⟩⟩
    ∧ okOracle.uuid ≠ "" :=
  c3_success_path_in_storing_variants "sec" okOracle sampleForm verifyAccept
    rfl rfl rfl rfl (by decide)

/-- Claim C4 counterexample: at a POST whose token the verification
service rejects, the 403 JSON body of the unnamed variant carries the whole
verification response — internal error codes included — under its
`details` field, and the backup variant returns a 403 that is a plain-text body with
no cross-origin header at all; both contradict the claim. -/
theorem c4_counterexample_rejection_leaks_details :
    (Part000.fetch "POST" "sec" rejectOracle).result
      = .ok ⟨403, [hContentTypeJson, hAllowOrigin],
          .json (.obj [("success", .bool false),
                       ("error", .str "Turnstile verification failed"),
                       ("details", verifyReject)])⟩
    ∧ (Part000.fetch "POST" "sec" rejectOracle).responseJson.bind
        (fun j => j.getField "details") = some verifyReject
    ∧ (BackupWorker.fetch "POST" "sec" rejectOracle).result
      = .ok ⟨403, [], .text "Bot detected"⟩ :=
  ⟨rfl, rfl, rfl⟩

/-- Claim C4 (amended): in the config.example variant, a POST whose token
the verification service rejects gets status 403 with the JSON body with
success false and the fixed generic message, carrying the cross-origin
header, and no storage write; the body is a constant, so it carries
neither the secret nor internal detail from the verification service.  The
backup variant instead returns a plain-text 403 without the header, and
the unnamed variant embeds the verification response under a details
field. -/
theorem c4_rejection_in_config_variant (secret : String) (o : Oracle)
    (fd : FormFields) (v : Jsonv)
    (hf : o.formResult = .ok fd) (hv : o.verifyResult = .ok v)
    (hs : successFlag v = false) :
    ConfigExample.fetch "POST" secret o
      = ⟨.ok ⟨403, [hContentTypeJson, hAllowOrigin],
           .json (.obj [("success", .bool false),
                        ("error", .str "Turnstile verification failed")])⟩,
         ⟨[⟨secret, fd.turnstileToken⟩], []⟩⟩ := by
  obtain ⟨fr, vr, pr, u, n⟩ := o
  simp only at hf hv
  subst hf
  subst hv
  simp [ConfigExample.fetch, hs]

/-- Witness for the amended C4 at a concrete rejected submission. -/
theorem c4_rejection_in_config_variant_witness :
    ConfigExample.fetch "POST" "sec" rejectOracle
      = ⟨.ok ⟨403, [hContentTypeJson, hAllowOrigin],
           .json (.obj [("success", .bool false),
                        ("error", .str "Turnstile verification failed")])⟩,
         ⟨[⟨"sec", sampleForm.turnstileToken⟩], []⟩⟩ :=
  c4_rejection_in_config_variant "sec" rejectOracle sampleForm verifyReject rfl rfl rfl

/-- Claim C6 counterexample: on a GET request the backup and
worker-cors-complete variants return the plain-text 405 with an empty
header list, so the response does not carry the Access-Control-Allow-Origin
header the claim requires. -/
theorem c6_counterexample_405_without_cors :
    BackupWorker.fetch "GET" "sec" okOracle
      = ⟨.ok ⟨405, [], .text "Method Not Allowed"⟩, noEffects⟩
    ∧ (BackupWorker.fetch "GET" "sec" okOracle).responseHeaders.lookup
        "Access-Control-Allow-Origin" = none
    ∧ WorkerCorsComplete.handleRequest "GET" okOracle
      = ⟨.ok ⟨405, [], .text "Method not allowed"⟩, noEffects⟩
    ∧ (WorkerCorsComplete.handleRequest "GET" okOracle).responseHeaders.lookup
        "Access-Control-Allow-Origin" = none :=
  ⟨rfl, rfl, rfl, rfl⟩

/-- Claim C6 (amended): a request whose method is neither OPTIONS nor
POST gets a plain-text 405 with no side effects in every variant; the
unnamed and config.example variants attach the permissive cross-origin
header, while the backup and worker-cors-complete variants return it with
no headers at all. -/
theorem c6_method_rejection (secret : String) (o : Oracle) (m : String)
    (h1 : m ≠ "OPTIONS") (h2 : m ≠ "POST") :
    Part000.fetch m secret o
      = ⟨.ok ⟨405, [hAllowOrigin], .text "Method Not Allowed"⟩, noEffects⟩
    ∧ ConfigExample.fetch m secret o
      = ⟨.ok ⟨405, [hAllowOrigin], .text "Method Not Allowed"⟩, noEffects⟩
    ∧ BackupWorker.fetch m secret o
      = ⟨.ok ⟨405, [], .text "Method Not Allowed"⟩, noEffects⟩
    ∧ WorkerCorsComplete.handleRequest m o
      = ⟨.ok ⟨405, [], .text "Method not allowed"⟩, noEffects⟩ := by
  refine ⟨?_, ?_, ?_, ?_⟩ <;>
    simp [Part000.fetch, ConfigExample.fetch, BackupWorker.fetch,
          WorkerCorsComplete.handleRequest, h1, h2]

/-- Witness for the amended C6 at method GET. -/
theorem c6_method_rejection_witness :
    Part000.fetch "GET" "sec" okOracle
      = ⟨.ok ⟨405, [hAllowOrigin], .text "Method Not Allowed"⟩, noEffects⟩
    ∧ ConfigExample.fetch "GET" "sec" okOracle
      = ⟨.ok ⟨405, [hAllowOrigin], .text "Method Not Allowed"⟩, noEffects⟩
    ∧ BackupWorker.fetch "GET" "sec" okOracle
      = ⟨.ok ⟨405, [], .text "Method Not Allowed"⟩, noEffects⟩
    ∧ WorkerCorsComplete.handleRequest "GET" okOracle
      = ⟨.ok ⟨405, [], .text "Method not allowed"⟩, noEffects⟩ :=
  c6_method_rejection "sec" okOracle "GET" (by decide) (by decide)

/-- Claim C7 counterexample: a POST whose form parse throws reaches the
verification call in no variant (zero outbound calls, not exactly one),
and in the worker-cors-complete variant a POST without a token is
answered 400 before any verification call. -/
theorem c7_counterexample_zero_verify_calls :
    (Part000.fetch "POST" "sec" parseFailOracle).effects.verifyCalls = []
    ∧ (BackupWorker.fetch "POST" "sec" parseFailOracle).effects.verifyCalls = []
    ∧ (WorkerCorsComplete.handlePost missingTokenOracle).effects.verifyCalls = []
    ∧ (WorkerCorsComplete.handlePost missingTokenOracle).result
      = .ok (WorkerCorsComplete.jsonResponse
          (.obj [("success", .bool false), ("error", .str "Missing Turnstile token")]) 400) :=
  ⟨rfl, rfl, rfl, rfl⟩

/-- Claim C7 (amended): every POST performs at most one outbound
verification call and at most one store put, and no other I/O is modelled;
when the form parse returns normally the storing variants make exactly
one verification call, and the worker-cors-complete variant makes exactly
one verification call when additionally the parsed token is not falsy. -/
theorem c7_effect_bounds (secret : String) (o : Oracle) :
    ((BackupWorker.fetch "POST" secret o).effects.verifyCalls.length ≤ 1
      ∧ (BackupWorker.fetch "POST" secret o).effects.puts.length ≤ 1)
    ∧ ((Part000.fetch "POST" secret o).effects.verifyCalls.length ≤ 1
      ∧ (Part000.fetch "POST" secret o).effects.puts.length ≤ 1)
    ∧ ((ConfigExample.fetch "POST" secret o).effects.verifyCalls.length ≤ 1
      ∧ (ConfigExample.fetch "POST" secret o).effects.puts.length ≤ 1)
    ∧ ((WorkerCorsComplete.handlePost o).effects.verifyCalls.length ≤ 1
      ∧ (WorkerCorsComplete.handlePost o).effects.puts.length ≤ 1)
    ∧ (o.formResult.isOk = true →
        (BackupWorker.fetch "POST" secret o).effects.verifyCalls.length = 1
        ∧ (Part000.fetch "POST" secret o).effects.verifyCalls.length = 1
        ∧ (ConfigExample.fetch "POST" secret o).effects.verifyCalls.length = 1)
    ∧ (∀ fd, o.formResult = .ok fd → jsFalsyStr fd.turnstileToken = false →
        (WorkerCorsComplete.handlePost o).effects.verifyCalls.length = 1) := by
  obtain ⟨fr, vr, pr, u, n⟩ := o
  cases fr with
  | thrown e =>
    cases vr <;>
      simp [BackupWorker.fetch, Part000.fetch, ConfigExample.fetch,
            WorkerCorsComplete.handlePost, JsResult.isOk, noEffects]
  | ok fd =>
    cases vr with
    | thrown e =>
      cases hft : jsFalsyStr fd.turnstileToken <;>
        simp [BackupWorker.fetch, Part000.fetch, ConfigExample.fetch,
              WorkerCorsComplete.handlePost, JsResult.isOk, noEffects, hft]
    | ok v =>
      cases hft : jsFalsyStr fd.turnstileToken <;>
        cases hs : successFlag v <;> cases pr <;>
          simp [BackupWorker.fetch, Part000.fetch, ConfigExample.fetch,
                WorkerCorsComplete.handlePost, JsResult.isOk, noEffects, hft, hs]

/-- Witness for the amended C7 at a concrete parsed submission with a
non-falsy token. -/
theorem c7_effect_bounds_witness :
    okOracle.formResult.isOk = true
    ∧ okOracle.formResult = .ok sampleForm
    ∧ jsFalsyStr sampleForm.turnstileToken = false
    ∧ (BackupWorker.fetch "POST" "sec" okOracle).effects.verifyCalls.length = 1
    ∧ (Part000.fetch "POST" "sec" okOracle).effects.verifyCalls.length = 1
    ∧ (ConfigExample.fetch "POST" "sec" okOracle).effects.verifyCalls.length = 1
    ∧ (WorkerCorsComplete.handlePost okOracle).effects.verifyCalls.length = 1 :=
  ⟨rfl, rfl, rfl,
    ((c7_effect_bounds "sec" okOracle).2.2.2.2.1 rfl).1,
    ((c7_effect_bounds "sec" okOracle).2.2.2.2.1 rfl).2.1,
    ((c7_effect_bounds "sec" okOracle).2.2.2.2.1 rfl).2.2,
    (c7_effect_bounds "sec" okOracle).2.2.2.2.2 sampleForm rfl rfl⟩

/-- Claim C8: submission is not idempotent — in two successful POST
submissions with the same email, each response id is the identifier
freshly generated in that invocation, so when the two generated
identifiers differ the two responses carry distinct identifiers.  Proved
for the two variants cited, backup and config.example. -/
theorem c8_fresh_distinct_identifiers (secret : String) (o1 o2 : Oracle)
    (fd1 fd2 : FormFields) (v1 v2 : Jsonv)
    (hf1 : o1.formResult = .ok fd1) (hv1 : o1.verifyResult = .ok v1)
    (hs1 : successFlag v1 = true) (hp1 : o1.putResult = .ok ())
    (hf2 : o2.formResult = .ok fd2) (hv2 : o2.verifyResult = .ok v2)
    (hs2 : successFlag v2 = true) (hp2 : o2.putResult = .ok ())
    (_hemail : fd1.email = fd2.email) (hu : o1.uuid ≠ o2.uuid) :
    (BackupWorker.fetch "POST" secret o1).responseId = some (.str o1.uuid)
    ∧ (BackupWorker.fetch "POST" secret o2).responseId = some (.str o2.uuid)
    ∧ (BackupWorker.fetch "POST" secret o1).responseId
      ≠ (BackupWorker.fetch "POST" secret o2).responseId
    ∧ (ConfigExample.fetch "POST" secret o1).responseId = some (.str o1.uuid)
    ∧ (ConfigExample.fetch "POST" secret o2).responseId = some (.str o2.uuid)
    ∧ (ConfigExample.fetch "POST" secret o1).responseId
      ≠ (ConfigExample.fetch "POST" secret o2).responseId := by
  obtain ⟨fr1, vr1, pr1, u1, n1⟩ := o1
  obtain ⟨fr2, vr2, pr2, u2, n2⟩ := o2
  simp only at hf1 hv1 hp1 hf2 hv2 hp2 hu
  subst hf1
  subst hv1
  subst hp1
  subst hf2
  subst hv2
  subst hp2
  refine ⟨?_, ?_, ?_, ?_, ?_, ?_⟩ <;>
    simp [BackupWorker.fetch, ConfigExample.fetch, Outcome.responseId,
          Outcome.responseJson, Jsonv.getField, List.lookup, hs1, hs2, hu]

/-- Witness for C8: two concrete accepted submissions with the same email
and different generated identifiers. -/
theorem c8_fresh_distinct_identifiers_witness :
    (BackupWorker.fetch "POST" "sec" okOracle).responseId = some (.str okOracle.uuid)
    ∧ (BackupWorker.fetch "POST" "sec" okOracle2).responseId = some (.str okOracle2.uuid)
    ∧ (BackupWorker.fetch "POST" "sec" okOracle).responseId
      ≠ (BackupWorker.fetch "POST" "sec" okOracle2).responseId
    ∧ (ConfigExample.fetch "POST" "sec" okOracle).responseId = some (.str okOracle.uuid)
    ∧ (ConfigExample.fetch "POST" "sec" okOracle2).responseId = some (.str okOracle2.uuid)
    ∧ (ConfigExample.fetch "POST" "sec" okOracle).responseId
      ≠ (ConfigExample.fetch "POST" "sec" okOracle2).responseId :=
  c8_fresh_distinct_identifiers "sec" okOracle okOracle2 sampleForm sampleForm
    verifyAccept verifyAccept rfl rfl rfl rfl rfl rfl rfl rfl rfl (by decide)

/-- Claim C9: in the variants that key the store by email (backup and the
unnamed draft), the company form field is never read — the whole outcome
is unchanged under any change of the company field — and every record
they put has exactly the fields email, timestamp, id. -/
theorem c9_company_never_read_never_stored (secret : String) (o : Oracle)
    (fd : FormFields) (c : Option String) (m : String) :
    BackupWorker.fetch m secret { o with formResult := .ok { fd with company := c } }
      = BackupWorker.fetch m secret { o with formResult := .ok fd }
    ∧ Part000.fetch m secret { o with formResult := .ok { fd with company := c } }
      = Part000.fetch m secret { o with formResult := .ok fd }
    ∧ (BackupWorker.fetch "POST" secret o).effects.puts.all
        (fun kv => fieldNames kv.2 == some ["email", "timestamp", "id"]) = true
    ∧ (Part000.fetch "POST" secret o).effects.puts.all
        (fun kv => fieldNames kv.2 == some ["email", "timestamp", "id"]) = true := by
  obtain ⟨fr, vr, pr, u, n⟩ := o
  refine ⟨rfl, rfl, ?_, ?_⟩ <;>
  · cases fr with
    | thrown e =>
      cases vr <;> simp [BackupWorker.fetch, Part000.fetch, noEffects]
    | ok fd2 =>
      cases vr with
      | thrown e => simp [BackupWorker.fetch, Part000.fetch]
      | ok v =>
        cases hs : successFlag v <;> cases pr <;>
          simp [BackupWorker.fetch, Part000.fetch, fieldNames, hs]

/-- Claim C10: on every successful POST, the identifier in the response
body equals the identifier stored in the persisted record, in each of the
three storing variants. -/
theorem c10_response_id_equals_stored_id (secret : String) (o : Oracle)
    (fd : FormFields) (v : Jsonv)
    (hf : o.formResult = .ok fd) (hv : o.verifyResult = .ok v)
    (hs : successFlag v = true) (hp : o.putResult = .ok ()) :
    (∃ k rec,
      (BackupWorker.fetch "POST" secret o).effects.puts = [(k, rec)]
      ∧ rec.getField "id" = some (.str o.uuid)
      ∧ (BackupWorker.fetch "POST" secret o).responseId = some (.str o.uuid))
    ∧ (∃ k rec,
      (Part000.fetch "POST" secret o).effects.puts = [(k, rec)]
      ∧ rec.getField "id" = some (.str o.uuid)
      ∧ (Part000.fetch "POST" secret o).responseId = some (.str o.uuid))
    ∧ (∃ k rec,
      (ConfigExample.fetch "POST" secret o).effects.puts = [(k, rec)]
      ∧ rec.getField "id" = some (.str o.uuid)
      ∧ (ConfigExample.fetch "POST" secret o).responseId = some (.str o.uuid)) := by
  obtain ⟨fr, vr, pr, u, n⟩ := o
  simp only at hf hv hp
  subst hf
  subst hv
  subst hp
  refine ⟨⟨"lead:" ++ jsTemplate fd.email,
           Jsonv.obj [("email", jsField fd.email), ("timestamp", .str n), ("id", .str u)],
           ?_, ?_, ?_⟩,
          ⟨"lead:" ++ jsTemplate fd.email,
           Jsonv.obj [("email", jsField fd.email), ("timestamp", .str n), ("id", .str u)],
           ?_, ?_, ?_⟩,
          ⟨u,
           Jsonv.obj [("email", jsField fd.email), ("company", jsField fd.company),
                      ("timestamp", .str n), ("id", .str u)],
           ?_, ?_, ?_⟩⟩ <;>
    simp [BackupWorker.fetch, Part000.fetch, ConfigExample.fetch, Outcome.responseId,
          Outcome.responseJson, Jsonv.getField, List.lookup, hs]

/-- Witness for C10 at a concrete accepted submission. -/
theorem c10_response_id_equals_stored_id_witness :
    (∃ k rec,
      (BackupWorker.fetch "POST" "sec" okOracle).effects.puts = [(k, rec)]
      ∧ rec.getField "id" = some (.str okOracle.uuid)
      ∧ (BackupWorker.fetch "POST" "sec" okOracle).responseId = some (.str okOracle.uuid))
    ∧ (∃ k rec,
      (Part000.fetch "POST" "sec" okOracle).effects.puts = [(k, rec)]
      ∧ rec.getField "id" = some (.str okOracle.uuid)
      ∧ (Part000.fetch "POST" "sec" okOracle).responseId = some (.str okOracle.uuid))
    ∧ (∃ k rec,
      (ConfigExample.fetch "POST" "sec" okOracle).effects.puts = [(k, rec)]
      ∧ rec.getField "id" = some (.str okOracle.uuid)
      ∧ (ConfigExample.fetch "POST" "sec" okOracle).responseId = some (.str okOracle.uuid)) :=
  c10_response_id_equals_stored_id "sec" okOracle sampleForm verifyAccept rfl rfl rfl rfl
